import Mathlib

/-!
Verification of the RISC-V vector-extension (RVV) instruction disassembler.

The definitions below are a shallow embedding of `rvv_disassembler.py`:
every Python function of the decode pipeline is translated into a total
Lean function, with machine words modelled as `Nat` and every masking /
shifting operation made explicit.  Dictionary lookups that may miss are
modelled as `Option`-valued functions, exactly mirroring `dict.get`.
-/

namespace RVV

/-- The eight sub-fields extracted from a 32-bit instruction word,
mirroring the tuple returned by `extract_fields`. -/
structure ExtractedFields where
  opcode : Nat
  funct6 : Nat
  vm : Nat
  vs2 : Nat
  vs1_rs1 : Nat
  funct3 : Nat
  vd_rd : Nat
  imm5 : Nat
deriving Repr, DecidableEq

/-- `extract_fields`: pure bit slicing of the instruction word. -/
def extract_fields (instruction : Nat) : ExtractedFields :=
  { opcode := instruction &&& 0x7F
    funct6 := (instruction >>> 26) &&& 0x3F
    vm := (instruction >>> 25) &&& 0x1
    vs2 := (instruction >>> 20) &&& 0x1F
    vs1_rs1 := (instruction >>> 15) &&& 0x1F
    funct3 := (instruction >>> 12) &&& 0x7
    vd_rd := (instruction >>> 7) &&& 0x1F
    imm5 := (instruction >>> 15) &&& 0x1F }

/-- `get_operand_category`: total classification of the 3-bit funct3 field. -/
def get_operand_category (funct3 : Nat) : Option String :=
  if funct3 = 0b000 then some "OPIVV"
  else if funct3 = 0b001 then some "OPFVV"
  else if funct3 = 0b010 then some "OPMVV"
  else if funct3 = 0b011 then some "OPIVI"
  else if funct3 = 0b100 then some "OPIVX"
  else if funct3 = 0b101 then some "OPFVF"
  else if funct3 = 0b110 then some "OPMVX"
  else if funct3 = 0b111 then some "OPCFG"
  else none

/-- `get_integer_arithmetic_mnemonic`: the integer-arithmetic lookup table. -/
def get_integer_arithmetic_mnemonic (funct6 : Nat) (category : String) : Option String :=
  if category = "OPIVV" then
    match funct6 with
    | 0b000000 => some "vadd"
    | 0b000010 => some "vsub"
    | 0b000011 => some "vrsub"
    | 0b000100 => some "vminu"
    | 0b000101 => some "vmin"
    | 0b000110 => some "vmaxu"
    | 0b000111 => some "vmax"
    | 0b001001 => some "vand"
    | 0b001010 => some "vor"
    | 0b001011 => some "vxor"
    | 0b001100 => some "vrgather"
    | 0b001110 => some "vrgather"
    | 0b001111 => some "vcompress"
    | 0b010000 => some "vadc"
    | 0b010010 => some "vmsbc"
    | 0b010011 => some "vmsbc"
    | 0b010100 => some "vmerge"
    | 0b010111 => some "vmv"
    | 0b011000 => some "vmseq"
    | 0b011001 => some "vmsne"
    | 0b011010 => some "vmsltu"
    | 0b011011 => some "vmslt"
    | 0b011100 => some "vmsleu"
    | 0b011101 => some "vmsle"
    | 0b011110 => some "vmsgtu"
    | 0b011111 => some "vmsgt"
    | 0b100000 => some "vsaddu"
    | 0b100001 => some "vsadd"
    | 0b100010 => some "vssubu"
    | 0b100011 => some "vssub"
    | 0b100100 => some "vaaddu"
    | 0b100101 => some "vaadd"
    | 0b100110 => some "vasubu"
    | 0b100111 => some "vasub"
    | 0b101000 => some "vsmul"
    | 0b101010 => some "vssrl"
    | 0b101011 => some "vssra"
    | 0b101100 => some "vnclipu"
    | 0b101101 => some "vnclip"
    | _ => none
  else if category = "OPIVX" then
    match funct6 with
    | 0b000000 => some "vadd"
    | 0b000010 => some "vsub"
    | 0b000011 => some "vrsub"
    | 0b000100 => some "vminu"
    | 0b000101 => some "vmin"
    | 0b000110 => some "vmaxu"
    | 0b000111 => some "vmax"
    | 0b001001 => some "vand"
    | 0b001010 => some "vor"
    | 0b001011 => some "vxor"
    | 0b001100 => some "vrgather"
    | 0b001110 => some "vslideup"
    | 0b001111 => some "vslidedown"
    | 0b010000 => some "vadc"
    | 0b010010 => some "vmsbc"
    | 0b010100 => some "vmerge"
    | 0b010111 => some "vmv"
    | 0b011000 => some "vmseq"
    | 0b011001 => some "vmsne"
    | 0b011010 => some "vmsltu"
    | 0b011011 => some "vmslt"
    | 0b011100 => some "vmsleu"
    | 0b011101 => some "vmsle"
    | 0b011110 => some "vmsgtu"
    | 0b011111 => some "vmsgt"
    | 0b100000 => some "vsaddu"
    | 0b100001 => some "vsadd"
    | 0b100010 => some "vssubu"
    | 0b100011 => some "vssub"
    | 0b100100 => some "vaaddu"
    | 0b100101 => some "vaadd"
    | 0b100110 => some "vasubu"
    | 0b100111 => some "vasub"
    | 0b101000 => some "vsmul"
    | 0b101010 => some "vssrl"
    | 0b101011 => some "vssra"
    | 0b101100 => some "vnclipu"
    | 0b101101 => some "vnclip"
    | 0b110000 => some "vwaddu"
    | 0b110001 => some "vwadd"
    | 0b110010 => some "vwsubu"
    | 0b110011 => some "vwsub"
    | 0b110100 => some "vwaddu"
    | 0b110101 => some "vwadd"
    | 0b110110 => some "vwsubu"
    | 0b110111 => some "vwsub"
    | 0b111000 => some "vwmulu"
    | 0b111010 => some "vwmulsu"
    | 0b111011 => some "vwmul"
    | 0b111100 => some "vwmaccu"
    | 0b111101 => some "vwmacc"
    | 0b111110 => some "vwmaccsu"
    | 0b111111 => some "vwmaccus"
    | _ => none
  else if category = "OPIVI" then
    match funct6 with
    | 0b000000 => some "vadd"
    | 0b000011 => some "vrsub"
    | 0b000100 => some "vminu"
    | 0b000101 => some "vmin"
    | 0b000110 => some "vmaxu"
    | 0b000111 => some "vmax"
    | 0b001001 => some "vand"
    | 0b001010 => some "vor"
    | 0b001011 => some "vxor"
    | 0b001100 => some "vrgather"
    | 0b001110 => some "vslideup"
    | 0b001111 => some "vslidedown"
    | 0b010000 => some "vadc"
    | 0b010100 => some "vmerge"
    | 0b010111 => some "vmv"
    | 0b011000 => some "vmseq"
    | 0b011001 => some "vmsne"
    | 0b011010 => some "vmsltu"
    | 0b011011 => some "vmslt"
    | 0b011100 => some "vmsleu"
    | 0b011101 => some "vmsle"
    | 0b011110 => some "vmsgtu"
    | 0b011111 => some "vmsgt"
    | 0b100000 => some "vsaddu"
    | 0b100001 => some "vsadd"
    | 0b100010 => some "vssubu"
    | 0b100011 => some "vssub"
    | 0b100100 => some "vaaddu"
    | 0b100101 => some "vaadd"
    | 0b100110 => some "vasubu"
    | 0b100111 => some "vasub"
    | 0b101010 => some "vssrl"
    | 0b101011 => some "vssra"
    | 0b101100 => some "vnclipu"
    | 0b101101 => some "vnclip"
    | _ => none
  else none

/-- `get_shift_mnemonic`: the shift-instruction lookup table. -/
def get_shift_mnemonic (funct6 : Nat) (category : String) : Option String :=
  if category = "OPIVV" then
    match funct6 with
    | 0b010101 => some "vsll"
    | 0b010110 => some "vsmul"
    | _ => none
  else if category = "OPIVX" then
    match funct6 with
    | 0b010101 => some "vsll"
    | 0b011000 => some "vsrl"
    | _ => none
  else if category = "OPIVI" then
    match funct6 with
    | 0b010101 => some "vsll"
    | 0b011000 => some "vsrl"
    | 0b011001 => some "vsra"
    | _ => none
  else none

/-- `get_multiply_mnemonic`: the multiply-instruction lookup table. -/
def get_multiply_mnemonic (funct6 : Nat) (category : String) : Option String :=
  if category = "OPIVV" then
    match funct6 with
    | 0b100000 => some "vmul"
    | 0b100001 => some "vmulh"
    | 0b100010 => some "vmulhsu"
    | 0b100011 => some "vmulhu"
    | 0b100100 => some "vmadd"
    | 0b100101 => some "vnmsub"
    | 0b100110 => some "vmacc"
    | 0b100111 => some "vnmsac"
    | 0b101000 => some "vwmul"
    | 0b101001 => some "vwmulu"
    | 0b101010 => some "vwmulsu"
    | 0b101100 => some "vwmacc"
    | 0b101101 => some "vwmaccu"
    | 0b101110 => some "vwmaccsu"
    | 0b101111 => some "vwmaccus"
    | 0b110000 => some "vwaddu"
    | 0b110001 => some "vwadd"
    | 0b110010 => some "vwsubu"
    | 0b110011 => some "vwsub"
    | 0b110100 => some "vwaddu"
    | 0b110101 => some "vwadd"
    | 0b110110 => some "vwsubu"
    | 0b110111 => some "vwsub"
    | _ => none
  else if category = "OPIVX" then
    match funct6 with
    | 0b100000 => some "vmul"
    | 0b100001 => some "vmulh"
    | 0b100010 => some "vmulhsu"
    | 0b100011 => some "vmulhu"
    | 0b100100 => some "vmadd"
    | 0b100101 => some "vnmsub"
    | 0b100110 => some "vmacc"
    | 0b100111 => some "vnmsac"
    | _ => none
  else none

/-- `get_floating_point_mnemonic`: the floating-point lookup table. -/
def get_floating_point_mnemonic (funct6 : Nat) (category : String) : Option String :=
  if category = "OPFVV" then
    match funct6 with
    | 0b000000 => some "vfadd"
    | 0b000010 => some "vfsub"
    | 0b000100 => some "vfmin"
    | 0b000101 => some "vfmax"
    | 0b000110 => some "vfsgnj"
    | 0b000111 => some "vfsgnjn"
    | 0b001000 => some "vfsgnjx"
    | 0b001010 => some "vfmul"
    | 0b001100 => some "vfdiv"
    | 0b001110 => some "vfrdiv"
    | 0b010000 => some "vfmacc"
    | 0b010001 => some "vfnmacc"
    | 0b010010 => some "vfmsac"
    | 0b010011 => some "vfnmsac"
    | 0b010100 => some "vfmadd"
    | 0b010101 => some "vfnmadd"
    | 0b010110 => some "vfmsub"
    | 0b010111 => some "vfnmsub"
    | 0b011000 => some "vfmul"
    | 0b011010 => some "vfredosum"
    | 0b011011 => some "vfredusum"
    | 0b011100 => some "vfredmax"
    | 0b011101 => some "vfredmin"
    | 0b100000 => some "vfwmacc"
    | 0b100001 => some "vfwnmacc"
    | 0b100010 => some "vfwmsac"
    | 0b100011 => some "vfwnmsac"
    | 0b100100 => some "vfwmul"
    | 0b101000 => some "vfadd"
    | 0b101010 => some "vfsub"
    | 0b101100 => some "vfwadd"
    | 0b101101 => some "vfwsub"
    | 0b101110 => some "vfwadd"
    | 0b101111 => some "vfwsub"
    | 0b110000 => some "vfmul"
    | 0b110100 => some "vfwmul"
    | 0b110110 => some "vfwmul"
    | 0b111000 => some "vfdiv"
    | 0b111010 => some "vfrdiv"
    | 0b111100 => some "vfwmacc"
    | 0b111101 => some "vfwnmacc"
    | 0b111110 => some "vfwmsac"
    | 0b111111 => some "vfwnmsac"
    | _ => none
  else if category = "OPFVF" then
    match funct6 with
    | 0b000000 => some "vfadd"
    | 0b000010 => some "vfsub"
    | 0b000100 => some "vfmin"
    | 0b000101 => some "vfmax"
    | 0b000110 => some "vfsgnj"
    | 0b000111 => some "vfsgnjn"
    | 0b001000 => some "vfsgnjx"
    | 0b001010 => some "vfmul"
    | 0b001100 => some "vfdiv"
    | 0b001110 => some "vfrdiv"
    | 0b010000 => some "vfmacc"
    | 0b010001 => some "vfnmacc"
    | 0b010010 => some "vfmsac"
    | 0b010011 => some "vfnmsac"
    | 0b010100 => some "vfmadd"
    | 0b010101 => some "vfnmadd"
    | 0b010110 => some "vfmsub"
    | 0b010111 => some "vfnmsub"
    | 0b100000 => some "vfwmacc"
    | 0b100001 => some "vfwnmacc"
    | 0b100010 => some "vfwmsac"
    | 0b100011 => some "vfwnmsac"
    | 0b100100 => some "vfwmul"
    | 0b101000 => some "vfadd"
    | 0b101010 => some "vfsub"
    | 0b101100 => some "vfwadd"
    | 0b101101 => some "vfwsub"
    | 0b101110 => some "vfwadd"
    | 0b101111 => some "vfwsub"
    | 0b110000 => some "vfmul"
    | 0b110100 => some "vfwmul"
    | 0b110110 => some "vfwmul"
    | 0b111000 => some "vfdiv"
    | 0b111010 => some "vfrdiv"
    | 0b111100 => some "vfwmacc"
    | 0b111101 => some "vfwnmacc"
    | 0b111110 => some "vfwmsac"
    | 0b111111 => some "vfwnmsac"
    | _ => none
  else none

/-- `get_reduction_mnemonic`: the reduction-instruction lookup table. -/
def get_reduction_mnemonic (funct6 : Nat) (category : String) : Option String :=
  if category = "OPIVV" then
    match funct6 with
    | 0b000000 => some "vredsum"
    | 0b000001 => some "vredand"
    | 0b000010 => some "vredor"
    | 0b000011 => some "vredxor"
    | 0b000100 => some "vredminu"
    | 0b000101 => some "vredmin"
    | 0b000110 => some "vredmaxu"
    | 0b000111 => some "vredmax"
    | _ => none
  else if category = "OPIVX" then
    match funct6 with
    | 0b000000 => some "vredsum"
    | 0b000001 => some "vredand"
    | 0b000010 => some "vredor"
    | 0b000011 => some "vredxor"
    | 0b000100 => some "vredminu"
    | 0b000101 => some "vredmin"
    | 0b000110 => some "vredmaxu"
    | 0b000111 => some "vredmax"
    | _ => none
  else none

/-- `get_mask_mnemonic`: the mask-family lookup table. -/
def get_mask_mnemonic (funct6 : Nat) (category : String) : Option String :=
  if category = "OPMVV" then
    match funct6 with
    | 0b010000 => some "vadc"
    | 0b010010 => some "vmsbc"
    | 0b010100 => some "vmerge"
    | 0b010111 => some "vmv"
    | 0b011000 => some "vmseq"
    | 0b011001 => some "vmsne"
    | 0b011010 => some "vmsltu"
    | 0b011011 => some "vmslt"
    | 0b011100 => some "vmsleu"
    | 0b011101 => some "vmsle"
    | 0b011110 => some "vmsgtu"
    | 0b011111 => some "vmsgt"
    | _ => none
  else if category = "OPMVX" then
    match funct6 with
    | 0b010000 => some "vadc"
    | 0b010010 => some "vmsbc"
    | 0b010100 => some "vmerge"
    | 0b010111 => some "vmv"
    | 0b011000 => some "vmseq"
    | 0b011001 => some "vmsne"
    | 0b011010 => some "vmsltu"
    | 0b011011 => some "vmslt"
    | 0b011100 => some "vmsleu"
    | 0b011101 => some "vmsle"
    | 0b011110 => some "vmsgtu"
    | 0b011111 => some "vmsgt"
    | _ => none
  else none

/-- `get_config_mnemonic`: configuration-instruction mnemonic resolution. -/
def get_config_mnemonic (funct6 : Nat) (vs2 : Nat) (vs1_rs1 : Nat) : Option String :=
  if funct6 = 0b000000 then
    if vs2 = 0b11111 then some "vsetvli" else some "vsetvl"
  else if funct6 = 0b100000 then some "vsetivli"
  else none

/-- `get_mnemonic`: category-dispatched mnemonic resolution with the
priority (fallback) ordering of the Python implementation. -/
def get_mnemonic (funct6 : Nat) (category : String) (vs2 vs1_rs1 vd_rd : Nat) : Option String :=
  if category = "OPCFG" then
    get_config_mnemonic funct6 vs2 vs1_rs1
  else if category = "OPFVV" ∨ category = "OPFVF" then
    get_floating_point_mnemonic funct6 category
  else if category = "OPMVV" ∨ category = "OPMVX" then
    get_mask_mnemonic funct6 category
  else if category = "OPIVV" ∨ category = "OPIVX" ∨ category = "OPIVI" then
    let reduction_step : Option String :=
      if funct6 = 0b000000 ∨ funct6 = 0b000001 ∨ funct6 = 0b000010 ∨ funct6 = 0b000011 ∨
         funct6 = 0b000100 ∨ funct6 = 0b000101 ∨ funct6 = 0b000110 ∨ funct6 = 0b000111 then
        match get_reduction_mnemonic funct6 category with
        | some m => some m
        | none => none
      else none
    match get_shift_mnemonic funct6 category with
    | some m => some m
    | none =>
      if 0b100000 ≤ funct6 ∧ funct6 ≤ 0b100111 then
        match (if category = "OPIVV" then get_multiply_mnemonic funct6 category else none) with
        | some m => some m
        | none =>
          match get_integer_arithmetic_mnemonic funct6 category with
          | some m => some m
          | none =>
            match get_multiply_mnemonic funct6 category with
            | some m => some m
            | none => reduction_step
      else
        match get_multiply_mnemonic funct6 category with
        | some m => some m
        | none =>
          match get_integer_arithmetic_mnemonic funct6 category with
          | some m => some m
          | none => reduction_step
  else none

/-- `decode_vtype`: decode the 11-bit vtype immediate into
"SEW, LMUL, ta, ma" or the token "ILLEGAL". -/
def decode_vtype (vtype : Nat) : String :=
  let vill := (vtype >>> 9) &&& 0x3
  if vill ≠ 0 then "ILLEGAL"
  else
    let vma := (vtype >>> 8) &&& 0x1
    let vta := (vtype >>> 7) &&& 0x1
    let vsew := (vtype >>> 5) &&& 0x3
    let vlmul_raw := vtype &&& 0x7
    let sew :=
      if vsew = 0 then "e8"
      else if vsew = 1 then "e16"
      else if vsew = 2 then "e32"
      else if vsew = 3 then "e64"
      else "e" ++ toString (8 <<< vsew)
    let lmul :=
      if vlmul_raw = 0 then "m1"
      else if vlmul_raw = 1 then "m2"
      else if vlmul_raw = 2 then "m4"
      else if vlmul_raw = 3 then "m8"
      else if vlmul_raw = 4 then "mf2"
      else if vlmul_raw = 5 then "mf4"
      else if vlmul_raw = 6 then "mf8"
      else "m" ++ toString vlmul_raw
    let ta := if vta = 0 then "ta" else "tu"
    let ma := if vma = 0 then "ma" else "mu"
    sew ++ ", " ++ lmul ++ ", " ++ ta ++ ", " ++ ma

/-- `get_load_store_mnemonic`: load/store mnemonic classification.
`scalar_step` is the code that runs when the vector unit-stride branch
falls through (Python reaches the second `if` and then `return None`). -/
def get_load_store_mnemonic (opcode funct3 width mop mew nf : Nat) : Option String :=
  if opcode = 0x07 ∨ opcode = 0x27 then
    let scalar_step : Option String :=
      if mop = 0b00 ∧ funct3 ≠ 0b111 then
        if funct3 = 0b000 then some (if opcode = 0x07 then "lb" else "sb")
        else if funct3 = 0b001 then some (if opcode = 0x07 then "lh" else "sh")
        else if funct3 = 0b010 then some (if opcode = 0x07 then "lw" else "sw")
        else if funct3 = 0b011 then some (if opcode = 0x07 then "ld" else "sd")
        else none
      else none
    if mop = 0b00 ∧ funct3 = 0b111 then
      if mew = 0 ∧ nf = 0 then
        if width = 0 then some (if opcode = 0x07 then "vle64" else "vse64")
        else
          let eew_bits := (width >>> 2) &&& 0x7
          if eew_bits = 0b000 then some (if opcode = 0x07 then "vle8" else "vse8")
          else if eew_bits = 0b001 then some (if opcode = 0x07 then "vle16" else "vse16")
          else if eew_bits = 0b010 then some (if opcode = 0x07 then "vle32" else "vse32")
          else if eew_bits = 0b011 then some (if opcode = 0x07 then "vle64" else "vse64")
          else scalar_step
      else scalar_step
    else scalar_step
  else none

/-- `format_load_store`: render a load/store instruction word. -/
def format_load_store (instruction : Nat) : String :=
  let opcode := instruction &&& 0x7F
  let funct3 := (instruction >>> 12) &&& 0x7
  let vd_rd := (instruction >>> 7) &&& 0x1F
  let rs1 := (instruction >>> 15) &&& 0x1F
  let width := (instruction >>> 20) &&& 0x1F
  let vm := (instruction >>> 25) &&& 0x1
  let mop := (instruction >>> 26) &&& 0x3
  let mew := (instruction >>> 28) &&& 0x1
  let nf := (instruction >>> 29) &&& 0x7
  match get_load_store_mnemonic opcode funct3 width mop mew nf with
  | none => "UNKNOWN"
  | some mnemonic =>
    let suffix := if funct3 = 0b111 ∧ mop = 0b00 then ".v" else ""
    let full_mnemonic := mnemonic ++ suffix
    if vm = 0 then
      full_mnemonic ++ " v" ++ toString vd_rd ++ ", (x" ++ toString rs1 ++ "), v0.t"
    else
      full_mnemonic ++ " v" ++ toString vd_rd ++ ", (x" ++ toString rs1 ++ ")"

/-- `sign_extend_imm5`: two's-complement sign extension of a 5-bit field. -/
def sign_extend_imm5 (imm5 : Nat) : Int :=
  let i := imm5 &&& 0x1F
  if i &&& 0x10 ≠ 0 then (i : Int) - 32 else (i : Int)

/-- `format_instruction`: render an arithmetic/configuration instruction. -/
def format_instruction (mnemonic category : String) (vd_rd vs2 vs1_rs1 imm5 vm : Nat) :
    String :=
  let suffix :=
    if category = "OPIVV" then ".vv"
    else if category = "OPIVX" then ".vx"
    else if category = "OPIVI" then ".vi"
    else if category = "OPFVV" then ".vv"
    else if category = "OPFVF" then ".vf"
    else if category = "OPMVV" then ".vv"
    else if category = "OPMVX" then ".vx"
    else if category = "OPCFG" then ""
    else ""
  let full_mnemonic := mnemonic ++ suffix
  if category = "OPCFG" then
    if mnemonic = "vsetvl" then
      full_mnemonic ++ " x" ++ toString vd_rd ++ ", x" ++ toString vs1_rs1 ++
        ", x" ++ toString vs2
    else if mnemonic = "vsetivli" then
      full_mnemonic ++ " x" ++ toString vd_rd ++ ", " ++ toString imm5 ++
        ", " ++ toString vs2
    else "UNKNOWN_FORMAT"
  else if category = "OPIVI" then
    let imm_val := sign_extend_imm5 imm5
    if vm = 0 then
      full_mnemonic ++ " v" ++ toString vd_rd ++ ", v" ++ toString vs2 ++ ", " ++
        toString imm_val ++ ", v0.t"
    else
      full_mnemonic ++ " v" ++ toString vd_rd ++ ", v" ++ toString vs2 ++ ", " ++
        toString imm_val
  else if category = "OPIVX" ∨ category = "OPFVF" ∨ category = "OPMVX" then
    if vm = 0 then
      full_mnemonic ++ " v" ++ toString vd_rd ++ ", v" ++ toString vs2 ++ ", x" ++
        toString vs1_rs1 ++ ", v0.t"
    else
      full_mnemonic ++ " v" ++ toString vd_rd ++ ", v" ++ toString vs2 ++ ", x" ++
        toString vs1_rs1
  else if category = "OPIVV" ∨ category = "OPFVV" ∨ category = "OPMVV" then
    if vm = 0 then
      full_mnemonic ++ " v" ++ toString vd_rd ++ ", v" ++ toString vs2 ++ ", v" ++
        toString vs1_rs1 ++ ", v0.t"
    else
      full_mnemonic ++ " v" ++ toString vd_rd ++ ", v" ++ toString vs2 ++ ", v" ++
        toString vs1_rs1
  else
    full_mnemonic ++ " v" ++ toString vd_rd ++ ", v" ++ toString vs2 ++ ", v" ++
      toString vs1_rs1

/-- `disassemble_rvv`: the top-level decoder.  `arith_path` is the code at
the end of the Python function (reached directly for non-configuration
categories, and by fall-through from the configuration special cases). -/
def disassemble_rvv (instruction : Nat) : String :=
  let opcode := instruction &&& 0x7F
  if opcode = 0x07 ∨ opcode = 0x27 then
    format_load_store instruction
  else if opcode ≠ 0x57 then
    "UNKNOWN"
  else
    let funct3 := (instruction >>> 12) &&& 0x7
    match get_operand_category funct3 with
    | none => "UNKNOWN"
    | some category =>
      let arith_path : String :=
        let f := extract_fields instruction
        match get_mnemonic f.funct6 category f.vs2 f.vs1_rs1 f.vd_rd with
        | none => "UNKNOWN"
        | some mnemonic =>
          format_instruction mnemonic category f.vd_rd f.vs2 f.vs1_rs1 f.imm5 f.vm
      if category = "OPCFG" then
        let vtype := (instruction >>> 20) &&& 0x7FF
        let vs2_lower := vtype &&& 0x1F
        let funct6_upper := (instruction >>> 26) &&& 0x3F
        let vd_rd := (instruction >>> 7) &&& 0x1F
        let vs1_rs1 := (instruction >>> 15) &&& 0x1F
        if funct6_upper = 0b100000 then
          "vsetivli x" ++ toString vd_rd ++ ", " ++ toString vs1_rs1 ++
            ", " ++ toString ((vtype >>> 5) &&& 0x1F)
        else if vs2_lower = 0b11111 then
          "vsetvli x" ++ toString vd_rd ++ ", x" ++ toString vs1_rs1 ++
            ", " ++ decode_vtype vtype
        else
          let f := extract_fields instruction
          match get_mnemonic f.funct6 category f.vs2 f.vs1_rs1 f.vd_rd with
          | some mnemonic =>
            format_instruction mnemonic category f.vd_rd f.vs2 f.vs1_rs1 f.imm5 f.vm
          | none =>
            if decode_vtype vtype ≠ "ILLEGAL" then
              "vsetvli x" ++ toString vd_rd ++ ", x" ++ toString vs1_rs1 ++
                ", " ++ decode_vtype vtype
            else arith_path
      else arith_path

/-! ### Arithmetic bridging lemmas

Masking with `2^n - 1` is reduction modulo `2^n`, and right shift is
division; these let `omega` reason about the extracted bit fields. -/

lemma mask1 (x : ℕ) : x &&& 1 = x % 2 := Nat.and_pow_two_sub_one_eq_mod x 1

lemma mask3 (x : ℕ) : x &&& 3 = x % 4 := Nat.and_pow_two_sub_one_eq_mod x 2

lemma mask7 (x : ℕ) : x &&& 7 = x % 8 := Nat.and_pow_two_sub_one_eq_mod x 3

lemma mask31 (x : ℕ) : x &&& 31 = x % 32 := Nat.and_pow_two_sub_one_eq_mod x 5

lemma mask63 (x : ℕ) : x &&& 63 = x % 64 := Nat.and_pow_two_sub_one_eq_mod x 6

lemma mask127 (x : ℕ) : x &&& 127 = x % 128 := Nat.and_pow_two_sub_one_eq_mod x 7

lemma mask2047 (x : ℕ) : x &&& 2047 = x % 2048 := Nat.and_pow_two_sub_one_eq_mod x 11

lemma sr2 (x : ℕ) : x >>> 2 = x / 4 := Nat.shiftRight_eq_div_pow x 2

lemma sr5 (x : ℕ) : x >>> 5 = x / 32 := Nat.shiftRight_eq_div_pow x 5

lemma sr7 (x : ℕ) : x >>> 7 = x / 128 := Nat.shiftRight_eq_div_pow x 7

lemma sr8 (x : ℕ) : x >>> 8 = x / 256 := Nat.shiftRight_eq_div_pow x 8

lemma sr9 (x : ℕ) : x >>> 9 = x / 512 := Nat.shiftRight_eq_div_pow x 9

lemma sr12 (x : ℕ) : x >>> 12 = x / 4096 := Nat.shiftRight_eq_div_pow x 12

lemma sr15 (x : ℕ) : x >>> 15 = x / 32768 := Nat.shiftRight_eq_div_pow x 15

lemma sr20 (x : ℕ) : x >>> 20 = x / 1048576 := Nat.shiftRight_eq_div_pow x 20

lemma sr25 (x : ℕ) : x >>> 25 = x / 33554432 := Nat.shiftRight_eq_div_pow x 25

lemma sr26 (x : ℕ) : x >>> 26 = x / 67108864 := Nat.shiftRight_eq_div_pow x 26

lemma sr28 (x : ℕ) : x >>> 28 = x / 268435456 := Nat.shiftRight_eq_div_pow x 28

lemma sr29 (x : ℕ) : x >>> 29 = x / 536870912 := Nat.shiftRight_eq_div_pow x 29

/-! ### String helper lemmas -/

lemma append_ne_empty_right (s t : String) (h : t ≠ "") : s ++ t ≠ "" := by
  intro hc
  apply h
  have hlen := congrArg String.length hc
  rw [String.length_append] at hlen
  have ht : t.length = 0 := by
    have : String.length "" = 0 := rfl
    omega
  have hd : t.data = [] := List.length_eq_zero.mp ht
  exact String.ext (hd.trans rfl)

lemma append_ne_empty_left (s t : String) (h : s ≠ "") : s ++ t ≠ "" := by
  intro hc
  apply h
  have hlen := congrArg String.length hc
  rw [String.length_append] at hlen
  have hs : s.length = 0 := by
    have : String.length "" = 0 := rfl
    omega
  have hd : s.data = [] := List.length_eq_zero.mp hs
  exact String.ext (hd.trans rfl)

/-! ### Characterization helpers for the decoder paths -/

lemma disassemble_rvv_load_store (w : ℕ)
    (h : w &&& 0x7F = 0x07 ∨ w &&& 0x7F = 0x27) :
    disassemble_rvv w = format_load_store w := by
  unfold disassemble_rvv
  exact if_pos h

lemma format_load_store_none (w : ℕ)
    (hm : get_load_store_mnemonic (w &&& 0x7F) ((w >>> 12) &&& 0x7) ((w >>> 20) &&& 0x1F)
            ((w >>> 26) &&& 0x3) ((w >>> 28) &&& 0x1) ((w >>> 29) &&& 0x7) = none) :
    format_load_store w = "UNKNOWN" := by
  simp only [format_load_store, hm]

lemma format_load_store_some (w : ℕ) (m : String)
    (hm : get_load_store_mnemonic (w &&& 0x7F) ((w >>> 12) &&& 0x7) ((w >>> 20) &&& 0x1F)
            ((w >>> 26) &&& 0x3) ((w >>> 28) &&& 0x1) ((w >>> 29) &&& 0x7) = some m) :
    format_load_store w =
      (m ++ (if (w >>> 12) &&& 0x7 = 0b111 ∧ (w >>> 26) &&& 0x3 = 0b00 then ".v" else "")) ++
        " v" ++ toString ((w >>> 7) &&& 0x1F) ++ ", (x" ++ toString ((w >>> 15) &&& 0x1F) ++
        (if (w >>> 25) &&& 0x1 = 0 then "), v0.t" else ")") := by
  simp only [format_load_store, hm]
  by_cases hvm : (w >>> 25) &&& 0x1 = 0
  · rw [if_pos hvm, if_pos hvm]
  · rw [if_neg hvm, if_neg hvm]

lemma disassemble_rvv_unknown (w : ℕ)
    (hnls : ¬(w &&& 0x7F = 0x07 ∨ w &&& 0x7F = 0x27))
    (hn57 : w &&& 0x7F ≠ 0x57) :
    disassemble_rvv w = "UNKNOWN" := by
  simp only [disassemble_rvv]
  rw [if_neg hnls, if_pos hn57]

lemma disassemble_rvv_arith (w : ℕ) (cat : String)
    (h57 : w &&& 0x7F = 0x57)
    (hcat : get_operand_category ((w >>> 12) &&& 0x7) = some cat)
    (hne : ¬cat = "OPCFG") :
    disassemble_rvv w =
      match get_mnemonic ((w >>> 26) &&& 0x3F) cat ((w >>> 20) &&& 0x1F)
          ((w >>> 15) &&& 0x1F) ((w >>> 7) &&& 0x1F) with
      | none => "UNKNOWN"
      | some mnemonic =>
        format_instruction mnemonic cat ((w >>> 7) &&& 0x1F) ((w >>> 20) &&& 0x1F)
          ((w >>> 15) &&& 0x1F) ((w >>> 15) &&& 0x1F) ((w >>> 25) &&& 0x1) := by
  simp [disassemble_rvv, extract_fields, h57, hcat, hne]

lemma disassemble_rvv_cfg (w : ℕ)
    (h57 : w &&& 0x7F = 0x57)
    (hf3 : (w >>> 12) &&& 0x7 = 0b111) :
    disassemble_rvv w =
      (if (w >>> 26) &&& 0x3F = 0b100000 then
        "vsetivli x" ++ toString ((w >>> 7) &&& 0x1F) ++ ", " ++
          toString ((w >>> 15) &&& 0x1F) ++ ", " ++
          toString ((((w >>> 20) &&& 0x7FF) >>> 5) &&& 0x1F)
      else if ((w >>> 20) &&& 0x7FF) &&& 0x1F = 0b11111 then
        "vsetvli x" ++ toString ((w >>> 7) &&& 0x1F) ++ ", x" ++
          toString ((w >>> 15) &&& 0x1F) ++ ", " ++ decode_vtype ((w >>> 20) &&& 0x7FF)
      else
        match get_mnemonic ((w >>> 26) &&& 0x3F) "OPCFG" ((w >>> 20) &&& 0x1F)
            ((w >>> 15) &&& 0x1F) ((w >>> 7) &&& 0x1F) with
        | some mnemonic =>
          format_instruction mnemonic "OPCFG" ((w >>> 7) &&& 0x1F) ((w >>> 20) &&& 0x1F)
            ((w >>> 15) &&& 0x1F) ((w >>> 15) &&& 0x1F) ((w >>> 25) &&& 0x1)
        | none =>
          if decode_vtype ((w >>> 20) &&& 0x7FF) ≠ "ILLEGAL" then
            "vsetvli x" ++ toString ((w >>> 7) &&& 0x1F) ++ ", x" ++
              toString ((w >>> 15) &&& 0x1F) ++ ", " ++
              decode_vtype ((w >>> 20) &&& 0x7FF)
          else
            match get_mnemonic ((w >>> 26) &&& 0x3F) "OPCFG" ((w >>> 20) &&& 0x1F)
                ((w >>> 15) &&& 0x1F) ((w >>> 7) &&& 0x1F) with
            | none => "UNKNOWN"
            | some mnemonic =>
              format_instruction mnemonic "OPCFG" ((w >>> 7) &&& 0x1F)
                ((w >>> 20) &&& 0x1F) ((w >>> 15) &&& 0x1F) ((w >>> 15) &&& 0x1F)
                ((w >>> 25) &&& 0x1)) := by
  simp [disassemble_rvv, extract_fields, get_operand_category, h57, hf3]

lemma append_paren_mask (s : String) : s ++ "), v0.t" = (s ++ ")") ++ ", v0.t" := by
  have h : ("), v0.t" : String) = ")" ++ ", v0.t" := by decide
  rw [h, ← String.append_assoc]

lemma format_instruction_mask (m cat : String)
    (h : cat = "OPIVV" ∨ cat = "OPIVX" ∨ cat = "OPIVI" ∨ cat = "OPFVV" ∨
         cat = "OPFVF" ∨ cat = "OPMVV" ∨ cat = "OPMVX")
    (vd_rd vs2 vs1_rs1 imm5 : ℕ) :
    format_instruction m cat vd_rd vs2 vs1_rs1 imm5 0 =
      format_instruction m cat vd_rd vs2 vs1_rs1 imm5 1 ++ ", v0.t" := by
  rcases h with h | h | h | h | h | h | h <;> subst h <;> simp [format_instruction]

/-! ### Claims -/

/-- C5 counterexample: the per-family tables are not pairwise disjoint on
(category, funct6) keys — the key ('OPIVV', 0b000000) carries the entry
`vadd` in the integer-arithmetic table and the entry `vredsum` in the
reduction table, two distinct candidate mnemonics for the same key. -/
theorem claim_C5_counterexample :
    get_integer_arithmetic_mnemonic 0b000000 "OPIVV" = some "vadd" ∧
    get_reduction_mnemonic 0b000000 "OPIVV" = some "vredsum" ∧
    ("vadd" : String) ≠ "vredsum" :=
  ⟨rfl, rfl, by decide⟩

/-- C5 (amended): the integer-arithmetic, shift, multiply and reduction
tables overlap on several (category, funct6) keys, and `get_mnemonic`
resolves each overlap by a fixed runtime priority: shift first; inside
funct6 0b100000–0b100111 multiply wins for OPIVV while arithmetic wins for
OPIVX/OPIVI; reduction is consulted last.  The result never depends on the
vs2/vs1/vd register fields. -/
theorem claim_C5 :
    (get_integer_arithmetic_mnemonic 0b000000 "OPIVV" = some "vadd" ∧
     get_reduction_mnemonic 0b000000 "OPIVV" = some "vredsum" ∧
     ∀ vs2 vs1_rs1 vd_rd : ℕ,
       get_mnemonic 0b000000 "OPIVV" vs2 vs1_rs1 vd_rd = some "vadd") ∧
    (get_shift_mnemonic 0b011000 "OPIVX" = some "vsrl" ∧
     get_integer_arithmetic_mnemonic 0b011000 "OPIVX" = some "vmseq" ∧
     ∀ vs2 vs1_rs1 vd_rd : ℕ,
       get_mnemonic 0b011000 "OPIVX" vs2 vs1_rs1 vd_rd = some "vsrl") ∧
    (get_multiply_mnemonic 0b100000 "OPIVV" = some "vmul" ∧
     get_integer_arithmetic_mnemonic 0b100000 "OPIVV" = some "vsaddu" ∧
     ∀ vs2 vs1_rs1 vd_rd : ℕ,
       get_mnemonic 0b100000 "OPIVV" vs2 vs1_rs1 vd_rd = some "vmul") ∧
    (get_multiply_mnemonic 0b100000 "OPIVX" = some "vmul" ∧
     get_integer_arithmetic_mnemonic 0b100000 "OPIVX" = some "vsaddu" ∧
     ∀ vs2 vs1_rs1 vd_rd : ℕ,
       get_mnemonic 0b100000 "OPIVX" vs2 vs1_rs1 vd_rd = some "vsaddu") :=
  ⟨⟨rfl, rfl, fun _ _ _ => rfl⟩, ⟨rfl, rfl, fun _ _ _ => rfl⟩,
   ⟨rfl, rfl, fun _ _ _ => rfl⟩, ⟨rfl, rfl, fun _ _ _ => rfl⟩⟩

/-- C6 counterexample: funct6 = 0b010000 in category OPMVV is a reserved
unary-group slot (VWXUNARY0: scalar-move / popcount / find-first), and
vs1 = 9 has no entry in any unary sub-table; the claim says decode must
fail, but the decoder renders the word 0x4204A057 as an ordinary
two-source instruction, ignoring vs1 as a sub-opcode. -/
theorem claim_C6_counterexample :
    disassemble_rvv 0x4204A057 = "vadc.vv v0, v0, v9" ∧
    ("vadc.vv v0, v0, v9" : String) ≠ "UNKNOWN" :=
  ⟨rfl, by decide⟩

/-- C6 (amended): mnemonic resolution performs no secondary lookup on
vs1/rs1: for every non-configuration category the resolved mnemonic
depends only on (funct6, category), so encodings in the unary-group funct6
slots decode identically for every vs1/rs1 (and vs2, vd) value. -/
theorem claim_C6 (funct6 : ℕ) (category : String) (h : category ≠ "OPCFG")
    (vs2 vs2' vs1_rs1 vs1_rs1' vd_rd vd_rd' : ℕ) :
    get_mnemonic funct6 category vs2 vs1_rs1 vd_rd =
      get_mnemonic funct6 category vs2' vs1_rs1' vd_rd' := by
  unfold get_mnemonic
  rw [if_neg h, if_neg h]

/-- C6 witness: instantiating the amended theorem at the unary-group slot
(funct6 = 0b010000, OPMVV) with two unrelated register triples. -/
theorem claim_C6_witness :
    get_mnemonic 0b010000 "OPMVV" 0 9 0 = get_mnemonic 0b010000 "OPMVV" 1 2 3 :=
  claim_C6 0b010000 "OPMVV" (by decide) 0 1 9 2 0 3

/-- C2 counterexample: the word 0x21F07057 is a configuration instruction
(opcode 0x57, funct3 0b111) whose vill field is nonzero (bit 29 set), yet
the decoder's output is the full vsetvli rendering with ILLEGAL as the
vtype descriptor, not the single token "ILLEGAL". -/
theorem claim_C2_counterexample :
    disassemble_rvv 0x21F07057 = "vsetvli x0, x0, ILLEGAL" ∧
    ("vsetvli x0, x0, ILLEGAL" : String) ≠ "ILLEGAL" :=
  ⟨rfl, by decide⟩

/-- C2 (amended): for a configuration instruction with nonzero vill bits,
`decode_vtype` itself yields exactly the token "ILLEGAL" with no other
subfield; the full decoder output wraps it as
"vsetvli x{rd}, x{rs1}, ILLEGAL" when bits 24:20 equal 31, and is
"UNKNOWN" otherwise (nonzero vill excludes the vsetivli and vsetvl
encodings, whose funct6 has zero in bits 4:3). -/
theorem claim_C2 (w : ℕ) (hop : w &&& 0x7F = 0x57)
    (hf3 : (w >>> 12) &&& 0x7 = 0b111)
    (hvill : (((w >>> 20) &&& 0x7FF) >>> 9) &&& 0x3 ≠ 0) :
    decode_vtype ((w >>> 20) &&& 0x7FF) = "ILLEGAL" ∧
    (((w >>> 20) &&& 0x7FF) &&& 0x1F = 0b11111 →
      disassemble_rvv w =
        "vsetvli x" ++ toString ((w >>> 7) &&& 0x1F) ++ ", x" ++
          toString ((w >>> 15) &&& 0x1F) ++ ", " ++ "ILLEGAL") ∧
    (((w >>> 20) &&& 0x7FF) &&& 0x1F ≠ 0b11111 →
      disassemble_rvv w = "UNKNOWN") := by
  have hdec : decode_vtype ((w >>> 20) &&& 0x7FF) = "ILLEGAL" := by
    unfold decode_vtype
    exact if_pos hvill
  have h32 : (w >>> 26) &&& 0x3F ≠ 0b100000 := by
    simp only [mask2047, mask63, mask3, sr20, sr9, sr26] at hvill ⊢
    omega
  have h0 : (w >>> 26) &&& 0x3F ≠ 0 := by
    simp only [mask2047, mask63, mask3, sr20, sr9, sr26] at hvill ⊢
    omega
  have hnone :
      get_mnemonic ((w >>> 26) &&& 0x3F) "OPCFG" ((w >>> 20) &&& 0x1F)
        ((w >>> 15) &&& 0x1F) ((w >>> 7) &&& 0x1F) = none := by
    unfold get_mnemonic get_config_mnemonic
    rw [if_pos rfl, if_neg h0, if_neg h32]
  refine ⟨hdec, ?_, ?_⟩ <;> intro hvs2
  · simp [disassemble_rvv, get_operand_category, hop, hf3, h32, hvs2, hdec]
  · simp [disassemble_rvv, get_operand_category, extract_fields, hop, hf3, h32, hvs2,
          hnone, hdec]

/-- C2 witness: instantiating the amended theorem at the concrete word
0x21F07057 (vill = 1, vs2 field = 31). -/
theorem claim_C2_witness :
    decode_vtype ((0x21F07057 >>> 20) &&& 0x7FF) = "ILLEGAL" ∧
    disassemble_rvv 0x21F07057 =
      "vsetvli x" ++ toString ((0x21F07057 >>> 7) &&& 0x1F) ++ ", x" ++
        toString ((0x21F07057 >>> 15) &&& 0x1F) ++ ", " ++ "ILLEGAL" := by
  have h := claim_C2 0x21F07057 (by decide) (by decide) (by decide)
  exact ⟨h.1, h.2.1 (by decide)⟩

/-- C4 counterexample: the width-field table of the code is not
{0 ↦ 8, 5 ↦ 16, 6 ↦ 32, 7 ↦ 64}: width 6 decodes to eew 16 (not 32),
width 7 decodes to eew 16 (not 64), and width 0 decodes to eew 64
(not 8). -/
theorem claim_C4_counterexample :
    get_load_store_mnemonic 0x07 0b111 6 0 0 0 = some "vle16" ∧
    get_load_store_mnemonic 0x07 0b111 7 0 0 0 = some "vle16" ∧
    get_load_store_mnemonic 0x07 0b111 0 0 0 0 = some "vle64" ∧
    (some "vle16" : Option String) ≠ some "vle32" ∧
    (some "vle16" : Option String) ≠ some "vle64" ∧
    (some "vle64" : Option String) ≠ some "vle8" := by
  refine ⟨rfl, rfl, rfl, by decide, by decide, by decide⟩

/-- C4 (amended): for a unit-stride vector load (opcode 0x07, funct3
0b111, mop 0, mew 0, nf 0) the effective element width comes from the
width field (bits 24:20) as follows: width 0 defaults to eew 64;
otherwise bits 24:22 of the width select eew via {0↦8, 1↦16, 2↦32,
3↦64}, and values ≥ 4 are not decodable.  With width 0 and vm = 1 the
word renders as "vle64.v vD, (xRS1)" with the register indices taken
from the vd and rs1 fields. -/
theorem claim_C4 :
    (∀ width, width < 32 →
      get_load_store_mnemonic 0x07 0b111 width 0 0 0 =
        (if width = 0 then some "vle64"
         else if (width >>> 2) &&& 0x7 = 0b000 then some "vle8"
         else if (width >>> 2) &&& 0x7 = 0b001 then some "vle16"
         else if (width >>> 2) &&& 0x7 = 0b010 then some "vle32"
         else if (width >>> 2) &&& 0x7 = 0b011 then some "vle64"
         else none)) ∧
    (∀ vd, vd < 32 → ∀ rs1, rs1 < 32 →
      disassemble_rvv (0x07 + 0x80 * vd + 0x7000 + 0x8000 * rs1 + 0x2000000) =
        "vle64.v v" ++ toString vd ++ ", (x" ++ toString rs1 ++ ")") := by
  constructor
  · intro width hwidth
    interval_cases width <;> rfl
  · intro vd hvd rs1 hrs1
    have hfields :
        (0x07 + 0x80 * vd + 0x7000 + 0x8000 * rs1 + 0x2000000) &&& 0x7F = 0x07 ∧
        ((0x07 + 0x80 * vd + 0x7000 + 0x8000 * rs1 + 0x2000000) >>> 12) &&& 0x7 = 7 ∧
        ((0x07 + 0x80 * vd + 0x7000 + 0x8000 * rs1 + 0x2000000) >>> 7) &&& 0x1F = vd ∧
        ((0x07 + 0x80 * vd + 0x7000 + 0x8000 * rs1 + 0x2000000) >>> 15) &&& 0x1F = rs1 ∧
        ((0x07 + 0x80 * vd + 0x7000 + 0x8000 * rs1 + 0x2000000) >>> 20) &&& 0x1F = 0 ∧
        ((0x07 + 0x80 * vd + 0x7000 + 0x8000 * rs1 + 0x2000000) >>> 25) &&& 0x1 = 1 ∧
        ((0x07 + 0x80 * vd + 0x7000 + 0x8000 * rs1 + 0x2000000) >>> 26) &&& 0x3 = 0 ∧
        ((0x07 + 0x80 * vd + 0x7000 + 0x8000 * rs1 + 0x2000000) >>> 28) &&& 0x1 = 0 ∧
        ((0x07 + 0x80 * vd + 0x7000 + 0x8000 * rs1 + 0x2000000) >>> 29) &&& 0x7 = 0 := by
      simp only [mask127, mask31, mask7, mask3, mask1, sr7, sr12, sr15, sr20, sr25,
                 sr26, sr28, sr29]
      omega
    obtain ⟨hop, hf3, hvdf, hrs1f, hw, hvm, hmop, hmew, hnf⟩ := hfields
    have hm :
        get_load_store_mnemonic
          ((0x07 + 0x80 * vd + 0x7000 + 0x8000 * rs1 + 0x2000000) &&& 0x7F)
          (((0x07 + 0x80 * vd + 0x7000 + 0x8000 * rs1 + 0x2000000) >>> 12) &&& 0x7)
          (((0x07 + 0x80 * vd + 0x7000 + 0x8000 * rs1 + 0x2000000) >>> 20) &&& 0x1F)
          (((0x07 + 0x80 * vd + 0x7000 + 0x8000 * rs1 + 0x2000000) >>> 26) &&& 0x3)
          (((0x07 + 0x80 * vd + 0x7000 + 0x8000 * rs1 + 0x2000000) >>> 28) &&& 0x1)
          (((0x07 + 0x80 * vd + 0x7000 + 0x8000 * rs1 + 0x2000000) >>> 29) &&& 0x7) =
          some "vle64" := by
      rw [hop, hf3, hw, hmop, hmew, hnf]
      rfl
    rw [disassemble_rvv_load_store _ (Or.inl hop), format_load_store_some _ _ hm,
        hf3, hmop, hvdf, hrs1f, hvm]
    rfl

/-- C4 witness: width 6 yields eew 16 through the table part, and the
concrete word 0x0202F187 (vd = 3, rs1 = 5) renders as the unit-stride
64-bit load. -/
theorem claim_C4_witness :
    get_load_store_mnemonic 0x07 0b111 6 0 0 0 = some "vle16" ∧
    disassemble_rvv 0x0202F187 = "vle64.v v3, (x5)" := by
  constructor
  · have h := claim_C4.1 6 (by norm_num)
    rw [h]
    rfl
  · have h := claim_C4.2 3 (by norm_num) 5 (by norm_num)
    rw [show (0x0202F187 : ℕ) = 0x07 + 0x80 * 3 + 0x7000 + 0x8000 * 5 + 0x2000000 by
          norm_num,
        h]
    rfl

/-- C7: a vector-immediate (OPIVI) instruction that resolves to a
mnemonic renders its imm5 field as the two's-complement sign extension:
values with bit 4 set render as imm5 − 32 and values with bit 4 clear
render as imm5 itself (so 0b11111 ↦ −1 and 0b01111 ↦ 15), and the decoded
string embeds exactly `toString (sign_extend_imm5 imm5)`. -/
theorem claim_C7 (w : ℕ) (hop : w &&& 0x7F = 0x57)
    (hf3 : (w >>> 12) &&& 0x7 = 0b011)
    (m : String)
    (hm : get_mnemonic ((w >>> 26) &&& 0x3F) "OPIVI" ((w >>> 20) &&& 0x1F)
            ((w >>> 15) &&& 0x1F) ((w >>> 7) &&& 0x1F) = some m) :
    (∀ n, n < 32 → sign_extend_imm5 n = if 16 ≤ n then (n : ℤ) - 32 else (n : ℤ)) ∧
    sign_extend_imm5 0b11111 = -1 ∧
    sign_extend_imm5 0b01111 = 15 ∧
    ((w >>> 25) &&& 0x1 = 1 →
      disassemble_rvv w =
        m ++ ".vi" ++ " v" ++ toString ((w >>> 7) &&& 0x1F) ++ ", v" ++
          toString ((w >>> 20) &&& 0x1F) ++ ", " ++
          toString (sign_extend_imm5 ((w >>> 15) &&& 0x1F))) ∧
    ((w >>> 25) &&& 0x1 = 0 →
      disassemble_rvv w =
        m ++ ".vi" ++ " v" ++ toString ((w >>> 7) &&& 0x1F) ++ ", v" ++
          toString ((w >>> 20) &&& 0x1F) ++ ", " ++
          toString (sign_extend_imm5 ((w >>> 15) &&& 0x1F)) ++ ", v0.t") := by
  refine ⟨by decide, by decide, by decide, ?_, ?_⟩ <;> intro hvm <;>
    simp [disassemble_rvv, get_operand_category, extract_fields,
          format_instruction, hop, hf3, hvm, hm]

/-- C7 witness: the concrete OPIVI word 0x022FB0D7 (vadd, vd = 1,
vs2 = 2, imm5 = 0b11111, vm = 1) renders with immediate −1. -/
theorem claim_C7_witness :
    disassemble_rvv 0x022FB0D7 = "vadd.vi v1, v2, -1" := by
  have h := (claim_C7 0x022FB0D7 (by decide) (by decide) "vadd"
    (by decide)).2.2.2.1 (by decide)
  rw [h]
  rfl

/-- C10: whenever the vill bits (10:9) of the vtype immediate are zero,
`decode_vtype` returns four comma-separated tokens "SEW, LMUL, tail,
mask", with the tail token "ta" exactly when vtype bit 7 is zero ("tu"
otherwise) and the mask token "ma" exactly when vtype bit 8 is zero
("mu" otherwise); the SEW and LMUL tokens come from fixed comma-free
vocabularies. -/
theorem claim_C10 (vtype : ℕ) (hvill : (vtype >>> 9) &&& 0x3 = 0) :
    ∃ sew lmul : String,
      (sew = "e8" ∨ sew = "e16" ∨ sew = "e32" ∨ sew = "e64") ∧
      (lmul = "m1" ∨ lmul = "m2" ∨ lmul = "m4" ∨ lmul = "m8" ∨
       lmul = "mf2" ∨ lmul = "mf4" ∨ lmul = "mf8" ∨ lmul = "m7") ∧
      decode_vtype vtype =
        sew ++ ", " ++ lmul ++ ", " ++
          (if (vtype >>> 7) &&& 0x1 = 0 then "ta" else "tu") ++ ", " ++
          (if (vtype >>> 8) &&& 0x1 = 0 then "ma" else "mu") := by
  simp only [decode_vtype, hvill, ne_eq, not_true_eq_false, if_false]
  have hsew4 : (vtype >>> 5) &&& 0x3 < 4 := by
    simp only [mask3]
    omega
  have hlm8 : vtype &&& 0x7 < 8 := by
    simp only [mask7]
    omega
  set s := (vtype >>> 5) &&& 0x3 with hs
  set l := vtype &&& 0x7 with hl
  clear_value s l
  interval_cases s <;> interval_cases l <;> refine ⟨_, _, ?_, ?_, rfl⟩ <;> decide

/-- C10 witness: the zero vtype immediate decodes to "e8, m1, ta, ma"
in the four-token shape. -/
theorem claim_C10_witness :
    ∃ sew lmul : String,
      (sew = "e8" ∨ sew = "e16" ∨ sew = "e32" ∨ sew = "e64") ∧
      (lmul = "m1" ∨ lmul = "m2" ∨ lmul = "m4" ∨ lmul = "m8" ∨
       lmul = "mf2" ∨ lmul = "mf4" ∨ lmul = "mf8" ∨ lmul = "m7") ∧
      decode_vtype 0 =
        sew ++ ", " ++ lmul ++ ", " ++
          (if ((0 : ℕ) >>> 7) &&& 0x1 = 0 then "ta" else "tu") ++ ", " ++
          (if ((0 : ℕ) >>> 8) &&& 0x1 = 0 then "ma" else "mu") :=
  claim_C10 0 (by decide)

/-- C3 counterexample: the configuration words 0x01F07057 and 0x03F07057
differ only in bit 25, but bit 25 is part of the vtype immediate there
(the low SEW bit), so the two outputs differ in the SEW token rather
than in a trailing mask qualifier. -/
theorem claim_C3_counterexample :
    disassemble_rvv 0x01F07057 = "vsetvli x0, x0, e8, m7, ta, ma" ∧
    disassemble_rvv 0x03F07057 = "vsetvli x0, x0, e16, m7, ta, ma" ∧
    disassemble_rvv 0x01F07057 ≠ disassemble_rvv 0x03F07057 ++ ", v0.t" ∧
    disassemble_rvv 0x01F07057 ≠ disassemble_rvv 0x03F07057 :=
  ⟨rfl, rfl, by decide, by decide⟩

/-- C3 (amended): for every pair of words identical except in the
mask-enable bit vm (bit 25) that is not a configuration instruction
(opcode 0x57 with funct3 0b111), either both decode to "UNKNOWN" or the
vm = 0 rendering equals the vm = 1 rendering with the trailing mask
qualifier ", v0.t" appended; configuration instructions are excluded
because bit 25 there belongs to the vtype/vsetivli immediate fields. -/
theorem claim_C3 (w : ℕ) (hvm : (w >>> 25) &&& 0x1 = 0)
    (hcfg : ¬(w &&& 0x7F = 0x57 ∧ (w >>> 12) &&& 0x7 = 0b111)) :
    (disassemble_rvv (w + 0x2000000) = "UNKNOWN" ∧ disassemble_rvv w = "UNKNOWN") ∨
    disassemble_rvv w = disassemble_rvv (w + 0x2000000) ++ ", v0.t" := by
  have hfields :
      (w + 0x2000000) &&& 0x7F = w &&& 0x7F ∧
      ((w + 0x2000000) >>> 12) &&& 0x7 = (w >>> 12) &&& 0x7 ∧
      ((w + 0x2000000) >>> 26) &&& 0x3F = (w >>> 26) &&& 0x3F ∧
      ((w + 0x2000000) >>> 20) &&& 0x1F = (w >>> 20) &&& 0x1F ∧
      ((w + 0x2000000) >>> 15) &&& 0x1F = (w >>> 15) &&& 0x1F ∧
      ((w + 0x2000000) >>> 7) &&& 0x1F = (w >>> 7) &&& 0x1F ∧
      ((w + 0x2000000) >>> 26) &&& 0x3 = (w >>> 26) &&& 0x3 ∧
      ((w + 0x2000000) >>> 28) &&& 0x1 = (w >>> 28) &&& 0x1 ∧
      ((w + 0x2000000) >>> 29) &&& 0x7 = (w >>> 29) &&& 0x7 ∧
      ((w + 0x2000000) >>> 25) &&& 0x1 = 1 := by
    simp only [mask127, mask63, mask31, mask7, mask3, mask1, sr7, sr12, sr15, sr20,
               sr25, sr26, sr28, sr29] at hvm ⊢
    omega
  obtain ⟨e_op, e_f3, e_f6, e_vs2, e_vs1, e_vd, e_mop, e_mew, e_nf, e_vm⟩ := hfields
  by_cases hls : w &&& 0x7F = 0x07 ∨ w &&& 0x7F = 0x27
  · have hls' : (w + 0x2000000) &&& 0x7F = 0x07 ∨ (w + 0x2000000) &&& 0x7F = 0x27 := by
      rw [e_op]; exact hls
    rw [disassemble_rvv_load_store w hls, disassemble_rvv_load_store _ hls']
    cases hm : get_load_store_mnemonic (w &&& 0x7F) ((w >>> 12) &&& 0x7)
        ((w >>> 20) &&& 0x1F) ((w >>> 26) &&& 0x3) ((w >>> 28) &&& 0x1)
        ((w >>> 29) &&& 0x7) with
    | none =>
      have hm' : get_load_store_mnemonic ((w + 0x2000000) &&& 0x7F)
          (((w + 0x2000000) >>> 12) &&& 0x7) (((w + 0x2000000) >>> 20) &&& 0x1F)
          (((w + 0x2000000) >>> 26) &&& 0x3) (((w + 0x2000000) >>> 28) &&& 0x1)
          (((w + 0x2000000) >>> 29) &&& 0x7) = none := by
        rw [e_op, e_f3, e_vs2, e_mop, e_mew, e_nf]; exact hm
      exact Or.inl ⟨format_load_store_none _ hm', format_load_store_none _ hm⟩
    | some m =>
      have hm' : get_load_store_mnemonic ((w + 0x2000000) &&& 0x7F)
          (((w + 0x2000000) >>> 12) &&& 0x7) (((w + 0x2000000) >>> 20) &&& 0x1F)
          (((w + 0x2000000) >>> 26) &&& 0x3) (((w + 0x2000000) >>> 28) &&& 0x1)
          (((w + 0x2000000) >>> 29) &&& 0x7) = some m := by
        rw [e_op, e_f3, e_vs2, e_mop, e_mew, e_nf]; exact hm
      right
      rw [format_load_store_some w m hm, format_load_store_some _ m hm',
          e_f3, e_mop, e_vd, e_vs1, e_vm, hvm]
      rw [if_pos rfl, append_paren_mask]
      rfl
  · have hls' : ¬((w + 0x2000000) &&& 0x7F = 0x07 ∨ (w + 0x2000000) &&& 0x7F = 0x27) := by
      rw [e_op]; exact hls
    by_cases h57 : w &&& 0x7F = 0x57
    · have h57' : (w + 0x2000000) &&& 0x7F = 0x57 := by rw [e_op]; exact h57
      have hf3ne : (w >>> 12) &&& 0x7 ≠ 0b111 := fun h => hcfg ⟨h57, h⟩
      have hcases : (w >>> 12) &&& 0x7 = 0 ∨ (w >>> 12) &&& 0x7 = 1 ∨
          (w >>> 12) &&& 0x7 = 2 ∨ (w >>> 12) &&& 0x7 = 3 ∨ (w >>> 12) &&& 0x7 = 4 ∨
          (w >>> 12) &&& 0x7 = 5 ∨ (w >>> 12) &&& 0x7 = 6 := by
        simp only [mask7, sr12] at hf3ne ⊢
        omega
      have hex : ∃ cat, get_operand_category ((w >>> 12) &&& 0x7) = some cat ∧
          (cat = "OPIVV" ∨ cat = "OPIVX" ∨ cat = "OPIVI" ∨ cat = "OPFVV" ∨
           cat = "OPFVF" ∨ cat = "OPMVV" ∨ cat = "OPMVX") := by
        rcases hcases with hf | hf | hf | hf | hf | hf | hf <;> rw [hf]
        exacts [⟨"OPIVV", rfl, by decide⟩, ⟨"OPFVV", rfl, by decide⟩,
                ⟨"OPMVV", rfl, by decide⟩, ⟨"OPIVI", rfl, by decide⟩,
                ⟨"OPIVX", rfl, by decide⟩, ⟨"OPFVF", rfl, by decide⟩,
                ⟨"OPMVX", rfl, by decide⟩]
      obtain ⟨cat, hcat, hmem⟩ := hex
      have hne : ¬cat = "OPCFG" := by
        rcases hmem with h | h | h | h | h | h | h <;> subst h <;> decide
      have hcat' : get_operand_category (((w + 0x2000000) >>> 12) &&& 0x7) = some cat := by
        rw [e_f3]; exact hcat
      rw [disassemble_rvv_arith w cat h57 hcat hne,
          disassemble_rvv_arith (w + 0x2000000) cat h57' hcat' hne,
          e_f6, e_vs2, e_vs1, e_vd, e_vm, hvm]
      cases hm : get_mnemonic ((w >>> 26) &&& 0x3F) cat ((w >>> 20) &&& 0x1F)
          ((w >>> 15) &&& 0x1F) ((w >>> 7) &&& 0x1F) with
      | none => exact Or.inl ⟨rfl, rfl⟩
      | some m => exact Or.inr (format_instruction_mask m cat hmem _ _ _ _)
    · have h57' : ¬(w + 0x2000000) &&& 0x7F = 0x57 := by rw [e_op]; exact h57
      exact Or.inl ⟨disassemble_rvv_unknown _ hls' h57',
                    disassemble_rvv_unknown w hls h57⟩

/-- C3 witness: the vadd.vv pair vd = 1, vs2 = 2, vs1 = 3, with bit 25
clear resp. set, differs exactly by the trailing ", v0.t". -/
theorem claim_C3_witness :
    disassemble_rvv 0x002180D7 = disassemble_rvv 0x022180D7 ++ ", v0.t" :=
  (claim_C3 0x002180D7 (by decide) (by decide)).resolve_left (by decide)

/-- C8 counterexample: for opcode = load, mop = unit-stride, the
sub-field value 0b01000 (the whole-register code) does not select a
whole-register mnemonic: with nf = 0 the word 0x02807007 decodes through
the width table as "vle32.v v0, (x0)", and with nf = 1 (which a
whole-register load vl2r would use) the word 0x22807007 is not decodable
at all. -/
theorem claim_C8_counterexample :
    disassemble_rvv 0x02807007 = "vle32.v v0, (x0)" ∧
    disassemble_rvv 0x22807007 = "UNKNOWN" :=
  ⟨rfl, rfl⟩

/-- C8 (amended): the load/store classifier has no whole-register case:
for opcode 0x07, funct3 0b111, mop 0 and the whole-register sub-field
code 0b01000 in bits 24:20, the word is interpreted through the
width/eew table — it decodes to "vle32" exactly when mew = 0 and nf = 0,
and is not decodable otherwise. -/
theorem claim_C8 :
    (∀ mew, mew < 2 → ∀ nf, nf < 8 →
      get_load_store_mnemonic 0x07 0b111 0b01000 0 mew nf =
        if mew = 0 ∧ nf = 0 then some "vle32" else none) ∧
    (∀ vd, vd < 32 → ∀ rs1, rs1 < 32 →
      disassemble_rvv (0x07 + 0x80 * vd + 0x7000 + 0x8000 * rs1 + 0x800000 + 0x2000000) =
        "vle32.v v" ++ toString vd ++ ", (x" ++ toString rs1 ++ ")") := by
  constructor
  · intro mew hmew nf hnf
    interval_cases mew <;> interval_cases nf <;> rfl
  · intro vd hvd rs1 hrs1
    have hfields :
        (0x07 + 0x80 * vd + 0x7000 + 0x8000 * rs1 + 0x800000 + 0x2000000) &&& 0x7F = 0x07 ∧
        ((0x07 + 0x80 * vd + 0x7000 + 0x8000 * rs1 + 0x800000 + 0x2000000) >>> 12) &&& 0x7 = 7 ∧
        ((0x07 + 0x80 * vd + 0x7000 + 0x8000 * rs1 + 0x800000 + 0x2000000) >>> 7) &&& 0x1F = vd ∧
        ((0x07 + 0x80 * vd + 0x7000 + 0x8000 * rs1 + 0x800000 + 0x2000000) >>> 15) &&& 0x1F = rs1 ∧
        ((0x07 + 0x80 * vd + 0x7000 + 0x8000 * rs1 + 0x800000 + 0x2000000) >>> 20) &&& 0x1F = 8 ∧
        ((0x07 + 0x80 * vd + 0x7000 + 0x8000 * rs1 + 0x800000 + 0x2000000) >>> 25) &&& 0x1 = 1 ∧
        ((0x07 + 0x80 * vd + 0x7000 + 0x8000 * rs1 + 0x800000 + 0x2000000) >>> 26) &&& 0x3 = 0 ∧
        ((0x07 + 0x80 * vd + 0x7000 + 0x8000 * rs1 + 0x800000 + 0x2000000) >>> 28) &&& 0x1 = 0 ∧
        ((0x07 + 0x80 * vd + 0x7000 + 0x8000 * rs1 + 0x800000 + 0x2000000) >>> 29) &&& 0x7 = 0 := by
      simp only [mask127, mask31, mask7, mask3, mask1, sr7, sr12, sr15, sr20, sr25,
                 sr26, sr28, sr29]
      omega
    obtain ⟨hop, hf3, hvdf, hrs1f, hw, hvm, hmop, hmew, hnf⟩ := hfields
    have hm :
        get_load_store_mnemonic
          ((0x07 + 0x80 * vd + 0x7000 + 0x8000 * rs1 + 0x800000 + 0x2000000) &&& 0x7F)
          (((0x07 + 0x80 * vd + 0x7000 + 0x8000 * rs1 + 0x800000 + 0x2000000) >>> 12) &&& 0x7)
          (((0x07 + 0x80 * vd + 0x7000 + 0x8000 * rs1 + 0x800000 + 0x2000000) >>> 20) &&& 0x1F)
          (((0x07 + 0x80 * vd + 0x7000 + 0x8000 * rs1 + 0x800000 + 0x2000000) >>> 26) &&& 0x3)
          (((0x07 + 0x80 * vd + 0x7000 + 0x8000 * rs1 + 0x800000 + 0x2000000) >>> 28) &&& 0x1)
          (((0x07 + 0x80 * vd + 0x7000 + 0x8000 * rs1 + 0x800000 + 0x2000000) >>> 29) &&& 0x7) =
          some "vle32" := by
      rw [hop, hf3, hw, hmop, hmew, hnf]
      rfl
    rw [disassemble_rvv_load_store _ (Or.inl hop), format_load_store_some _ _ hm,
        hf3, hmop, hvdf, hrs1f, hvm]
    rfl

/-- C8 witness: instantiating the table part at mew = 0, nf = 1 shows the
whole-register sub-field with a nonzero nf is not decodable, and the
rendering part at vd = 0, rs1 = 0 gives the concrete vle32 output. -/
theorem claim_C8_witness :
    get_load_store_mnemonic 0x07 0b111 0b01000 0 0 1 = none ∧
    disassemble_rvv (0x07 + 0x80 * 0 + 0x7000 + 0x8000 * 0 + 0x800000 + 0x2000000) =
      "vle32.v v" ++ toString (0 : ℕ) ++ ", (x" ++ toString (0 : ℕ) ++ ")" := by
  constructor
  · have h := claim_C8.1 0 (by norm_num) 1 (by norm_num)
    rw [h]
    rfl
  · exact claim_C8.2 0 (by norm_num) 0 (by norm_num)

/-- C9: words with opcode 0x07/0x27, mop = 0 and funct3 in {0,1,2,3}
decode to the scalar mnemonics lb/lh/lw/ld (loads) or sb/sh/sw/sd
(stores), selected by funct3 and not by the width field, rendered with
no ".v" suffix but with a "v" register prefix on the destination, as in
"lb v{rd}, (x{rs1})". -/
theorem claim_C9 (w : ℕ)
    (hop : w &&& 0x7F = 0x07 ∨ w &&& 0x7F = 0x27)
    (hmop : (w >>> 26) &&& 0x3 = 0)
    (hf3 : (w >>> 12) &&& 0x7 < 4) :
    ∃ m : String,
      get_load_store_mnemonic (w &&& 0x7F) ((w >>> 12) &&& 0x7) ((w >>> 20) &&& 0x1F)
        ((w >>> 26) &&& 0x3) ((w >>> 28) &&& 0x1) ((w >>> 29) &&& 0x7) = some m ∧
      m = (if w &&& 0x7F = 0x07 then
             if (w >>> 12) &&& 0x7 = 0 then "lb"
             else if (w >>> 12) &&& 0x7 = 1 then "lh"
             else if (w >>> 12) &&& 0x7 = 2 then "lw" else "ld"
           else
             if (w >>> 12) &&& 0x7 = 0 then "sb"
             else if (w >>> 12) &&& 0x7 = 1 then "sh"
             else if (w >>> 12) &&& 0x7 = 2 then "sw" else "sd") ∧
      disassemble_rvv w =
        m ++ " v" ++ toString ((w >>> 7) &&& 0x1F) ++ ", (x" ++
          toString ((w >>> 15) &&& 0x1F) ++
          (if (w >>> 25) &&& 0x1 = 0 then "), v0.t" else ")") := by
  have hcases : (w >>> 12) &&& 0x7 = 0 ∨ (w >>> 12) &&& 0x7 = 1 ∨
      (w >>> 12) &&& 0x7 = 2 ∨ (w >>> 12) &&& 0x7 = 3 := by
    simp only [mask7, sr12] at hf3 ⊢
    omega
  rcases hop with h7 | h7 <;> rcases hcases with hf | hf | hf | hf
  case inl.inl =>
    have hm : get_load_store_mnemonic (w &&& 0x7F) ((w >>> 12) &&& 0x7)
        ((w >>> 20) &&& 0x1F) ((w >>> 26) &&& 0x3) ((w >>> 28) &&& 0x1)
        ((w >>> 29) &&& 0x7) = some "lb" := by
      rw [h7, hf, hmop]
      rfl
    refine ⟨"lb", hm, by rw [h7, hf]; rfl, ?_⟩
    rw [disassemble_rvv_load_store _ (Or.inl h7), format_load_store_some _ _ hm, hf, hmop]
    rfl
  case inl.inr.inl =>
    have hm : get_load_store_mnemonic (w &&& 0x7F) ((w >>> 12) &&& 0x7)
        ((w >>> 20) &&& 0x1F) ((w >>> 26) &&& 0x3) ((w >>> 28) &&& 0x1)
        ((w >>> 29) &&& 0x7) = some "lh" := by
      rw [h7, hf, hmop]
      rfl
    refine ⟨"lh", hm, by rw [h7, hf]; rfl, ?_⟩
    rw [disassemble_rvv_load_store _ (Or.inl h7), format_load_store_some _ _ hm, hf, hmop]
    rfl
  case inl.inr.inr.inl =>
    have hm : get_load_store_mnemonic (w &&& 0x7F) ((w >>> 12) &&& 0x7)
        ((w >>> 20) &&& 0x1F) ((w >>> 26) &&& 0x3) ((w >>> 28) &&& 0x1)
        ((w >>> 29) &&& 0x7) = some "lw" := by
      rw [h7, hf, hmop]
      rfl
    refine ⟨"lw", hm, by rw [h7, hf]; rfl, ?_⟩
    rw [disassemble_rvv_load_store _ (Or.inl h7), format_load_store_some _ _ hm, hf, hmop]
    rfl
  case inl.inr.inr.inr =>
    have hm : get_load_store_mnemonic (w &&& 0x7F) ((w >>> 12) &&& 0x7)
        ((w >>> 20) &&& 0x1F) ((w >>> 26) &&& 0x3) ((w >>> 28) &&& 0x1)
        ((w >>> 29) &&& 0x7) = some "ld" := by
      rw [h7, hf, hmop]
      rfl
    refine ⟨"ld", hm, by rw [h7, hf]; rfl, ?_⟩
    rw [disassemble_rvv_load_store _ (Or.inl h7), format_load_store_some _ _ hm, hf, hmop]
    rfl
  case inr.inl =>
    have hm : get_load_store_mnemonic (w &&& 0x7F) ((w >>> 12) &&& 0x7)
        ((w >>> 20) &&& 0x1F) ((w >>> 26) &&& 0x3) ((w >>> 28) &&& 0x1)
        ((w >>> 29) &&& 0x7) = some "sb" := by
      rw [h7, hf, hmop]
      rfl
    refine ⟨"sb", hm, by rw [h7, hf]; rfl, ?_⟩
    rw [disassemble_rvv_load_store _ (Or.inr h7), format_load_store_some _ _ hm, hf, hmop]
    rfl
  case inr.inr.inl =>
    have hm : get_load_store_mnemonic (w &&& 0x7F) ((w >>> 12) &&& 0x7)
        ((w >>> 20) &&& 0x1F) ((w >>> 26) &&& 0x3) ((w >>> 28) &&& 0x1)
        ((w >>> 29) &&& 0x7) = some "sh" := by
      rw [h7, hf, hmop]
      rfl
    refine ⟨"sh", hm, by rw [h7, hf]; rfl, ?_⟩
    rw [disassemble_rvv_load_store _ (Or.inr h7), format_load_store_some _ _ hm, hf, hmop]
    rfl
  case inr.inr.inr.inl =>
    have hm : get_load_store_mnemonic (w &&& 0x7F) ((w >>> 12) &&& 0x7)
        ((w >>> 20) &&& 0x1F) ((w >>> 26) &&& 0x3) ((w >>> 28) &&& 0x1)
        ((w >>> 29) &&& 0x7) = some "sw" := by
      rw [h7, hf, hmop]
      rfl
    refine ⟨"sw", hm, by rw [h7, hf]; rfl, ?_⟩
    rw [disassemble_rvv_load_store _ (Or.inr h7), format_load_store_some _ _ hm, hf, hmop]
    rfl
  case inr.inr.inr.inr =>
    have hm : get_load_store_mnemonic (w &&& 0x7F) ((w >>> 12) &&& 0x7)
        ((w >>> 20) &&& 0x1F) ((w >>> 26) &&& 0x3) ((w >>> 28) &&& 0x1)
        ((w >>> 29) &&& 0x7) = some "sd" := by
      rw [h7, hf, hmop]
      rfl
    refine ⟨"sd", hm, by rw [h7, hf]; rfl, ?_⟩
    rw [disassemble_rvv_load_store _ (Or.inr h7), format_load_store_some _ _ hm, hf, hmop]
    rfl

/-- C9 witness: the concrete word 0x02020187 (opcode 0x07, funct3 0,
vd = 3, rs1 = 4, vm = 1) renders as "lb v3, (x4)". -/
theorem claim_C9_witness :
    disassemble_rvv 0x02020187 = "lb v3, (x4)" := by
  obtain ⟨m, hm, hmv, hd⟩ :=
    claim_C9 0x02020187 (Or.inl (by decide)) (by decide) (by decide)
  rw [hd, hmv]
  rfl

lemma disassemble_rvv_congr (w w' : ℕ)
    (e_op : w' &&& 0x7F = w &&& 0x7F)
    (e_f3 : (w' >>> 12) &&& 0x7 = (w >>> 12) &&& 0x7)
    (e_f6 : (w' >>> 26) &&& 0x3F = (w >>> 26) &&& 0x3F)
    (e_vs2 : (w' >>> 20) &&& 0x1F = (w >>> 20) &&& 0x1F)
    (e_vs1 : (w' >>> 15) &&& 0x1F = (w >>> 15) &&& 0x1F)
    (e_vd : (w' >>> 7) &&& 0x1F = (w >>> 7) &&& 0x1F)
    (e_vm : (w' >>> 25) &&& 0x1 = (w >>> 25) &&& 0x1)
    (e_mop : (w' >>> 26) &&& 0x3 = (w >>> 26) &&& 0x3)
    (e_mew : (w' >>> 28) &&& 0x1 = (w >>> 28) &&& 0x1)
    (e_nf : (w' >>> 29) &&& 0x7 = (w >>> 29) &&& 0x7)
    (e_vt : (w' >>> 20) &&& 0x7FF = (w >>> 20) &&& 0x7FF) :
    disassemble_rvv w' = disassemble_rvv w := by
  by_cases hls : w &&& 0x7F = 0x07 ∨ w &&& 0x7F = 0x27
  · have hls' : w' &&& 0x7F = 0x07 ∨ w' &&& 0x7F = 0x27 := by rw [e_op]; exact hls
    rw [disassemble_rvv_load_store w hls, disassemble_rvv_load_store w' hls']
    cases hm : get_load_store_mnemonic (w &&& 0x7F) ((w >>> 12) &&& 0x7)
        ((w >>> 20) &&& 0x1F) ((w >>> 26) &&& 0x3) ((w >>> 28) &&& 0x1)
        ((w >>> 29) &&& 0x7) with
    | none =>
      have hm' : get_load_store_mnemonic (w' &&& 0x7F) ((w' >>> 12) &&& 0x7)
          ((w' >>> 20) &&& 0x1F) ((w' >>> 26) &&& 0x3) ((w' >>> 28) &&& 0x1)
          ((w' >>> 29) &&& 0x7) = none := by
        rw [e_op, e_f3, e_vs2, e_mop, e_mew, e_nf]; exact hm
      rw [format_load_store_none w hm, format_load_store_none w' hm']
    | some m =>
      have hm' : get_load_store_mnemonic (w' &&& 0x7F) ((w' >>> 12) &&& 0x7)
          ((w' >>> 20) &&& 0x1F) ((w' >>> 26) &&& 0x3) ((w' >>> 28) &&& 0x1)
          ((w' >>> 29) &&& 0x7) = some m := by
        rw [e_op, e_f3, e_vs2, e_mop, e_mew, e_nf]; exact hm
      rw [format_load_store_some w m hm, format_load_store_some w' m hm',
          e_f3, e_mop, e_vd, e_vs1, e_vm]
  · have hls' : ¬(w' &&& 0x7F = 0x07 ∨ w' &&& 0x7F = 0x27) := by rw [e_op]; exact hls
    by_cases h57 : w &&& 0x7F = 0x57
    · have h57' : w' &&& 0x7F = 0x57 := by rw [e_op]; exact h57
      by_cases hcfg : (w >>> 12) &&& 0x7 = 0b111
      · have hcfg' : (w' >>> 12) &&& 0x7 = 0b111 := by rw [e_f3]; exact hcfg
        rw [disassemble_rvv_cfg w h57 hcfg, disassemble_rvv_cfg w' h57' hcfg',
            e_f6, e_vt, e_vs2, e_vs1, e_vd, e_vm]
      · have hcases : (w >>> 12) &&& 0x7 = 0 ∨ (w >>> 12) &&& 0x7 = 1 ∨
            (w >>> 12) &&& 0x7 = 2 ∨ (w >>> 12) &&& 0x7 = 3 ∨ (w >>> 12) &&& 0x7 = 4 ∨
            (w >>> 12) &&& 0x7 = 5 ∨ (w >>> 12) &&& 0x7 = 6 := by
          simp only [mask7, sr12] at hcfg ⊢
          omega
        have hex : ∃ cat, get_operand_category ((w >>> 12) &&& 0x7) = some cat ∧
            (cat = "OPIVV" ∨ cat = "OPIVX" ∨ cat = "OPIVI" ∨ cat = "OPFVV" ∨
             cat = "OPFVF" ∨ cat = "OPMVV" ∨ cat = "OPMVX") := by
          rcases hcases with hf | hf | hf | hf | hf | hf | hf <;> rw [hf]
          exacts [⟨"OPIVV", rfl, by decide⟩, ⟨"OPFVV", rfl, by decide⟩,
                  ⟨"OPMVV", rfl, by decide⟩, ⟨"OPIVI", rfl, by decide⟩,
                  ⟨"OPIVX", rfl, by decide⟩, ⟨"OPFVF", rfl, by decide⟩,
                  ⟨"OPMVX", rfl, by decide⟩]
        obtain ⟨cat, hcat, hmem⟩ := hex
        have hne : ¬cat = "OPCFG" := by
          rcases hmem with h | h | h | h | h | h | h <;> subst h <;> decide
        have hcat' : get_operand_category ((w' >>> 12) &&& 0x7) = some cat := by
          rw [e_f3]; exact hcat
        rw [disassemble_rvv_arith w cat h57 hcat hne,
            disassemble_rvv_arith w' cat h57' hcat' hne,
            e_f6, e_vs2, e_vs1, e_vd, e_vm]
    · have h57' : ¬w' &&& 0x7F = 0x57 := by rw [e_op]; exact h57
      rw [disassemble_rvv_unknown w hls h57, disassemble_rvv_unknown w' hls' h57']

lemma format_instruction_ne_empty (m cat : String) (vd_rd vs2 vs1_rs1 imm5 vm : ℕ) :
    format_instruction m cat vd_rd vs2 vs1_rs1 imm5 vm ≠ "" := by
  simp only [format_instruction]
  by_cases h1 : cat = "OPCFG"
  · rw [if_pos h1]
    by_cases h2 : m = "vsetvl"
    · rw [if_pos h2]
      exact append_ne_empty_left _ _ (append_ne_empty_right _ _ (by decide))
    · rw [if_neg h2]
      by_cases h3 : m = "vsetivli"
      · rw [if_pos h3]
        exact append_ne_empty_left _ _ (append_ne_empty_right _ _ (by decide))
      · rw [if_neg h3]
        decide
  · rw [if_neg h1]
    by_cases h2 : cat = "OPIVI"
    · rw [if_pos h2]
      by_cases h3 : vm = 0
      · rw [if_pos h3]
        exact append_ne_empty_right _ _ (by decide)
      · rw [if_neg h3]
        exact append_ne_empty_left _ _ (append_ne_empty_right _ _ (by decide))
    · rw [if_neg h2]
      by_cases h3 : cat = "OPIVX" ∨ cat = "OPFVF" ∨ cat = "OPMVX"
      · rw [if_pos h3]
        by_cases h4 : vm = 0
        · rw [if_pos h4]
          exact append_ne_empty_right _ _ (by decide)
        · rw [if_neg h4]
          exact append_ne_empty_left _ _ (append_ne_empty_right _ _ (by decide))
      · rw [if_neg h3]
        by_cases h4 : cat = "OPIVV" ∨ cat = "OPFVV" ∨ cat = "OPMVV"
        · rw [if_pos h4]
          by_cases h5 : vm = 0
          · rw [if_pos h5]
            exact append_ne_empty_right _ _ (by decide)
          · rw [if_neg h5]
            exact append_ne_empty_left _ _ (append_ne_empty_right _ _ (by decide))
        · rw [if_neg h4]
          exact append_ne_empty_left _ _ (append_ne_empty_right _ _ (by decide))

lemma format_load_store_ne_empty (w : ℕ) : format_load_store w ≠ "" := by
  simp only [format_load_store]
  split
  · decide
  · split_ifs <;> exact append_ne_empty_right _ _ (by decide)

lemma disassemble_rvv_ne_empty (w : ℕ) : disassemble_rvv w ≠ "" := by
  simp only [disassemble_rvv]
  repeat' split
  all_goals first
    | exact format_load_store_ne_empty w
    | exact format_instruction_ne_empty _ _ _ _ _ _ _
    | exact append_ne_empty_left _ _ (append_ne_empty_right _ _ (by decide))
    | exact append_ne_empty_right _ _ (by decide)
    | decide

/-- C1: decoding is total over the 32-bit input space — the decoder is a
total function whose every fallible table lookup is an explicit `Option`
handled at its call site, its result depends only on the low 32 bits of
the input (so every 32-bit word gets a well-defined answer), and the
returned string is never empty. -/
theorem claim_C1 (w : ℕ) :
    disassemble_rvv (w % 0x100000000) = disassemble_rvv w ∧
    disassemble_rvv w ≠ "" := by
  constructor
  · have hfields :
        (w % 0x100000000) &&& 0x7F = w &&& 0x7F ∧
        ((w % 0x100000000) >>> 12) &&& 0x7 = (w >>> 12) &&& 0x7 ∧
        ((w % 0x100000000) >>> 26) &&& 0x3F = (w >>> 26) &&& 0x3F ∧
        ((w % 0x100000000) >>> 20) &&& 0x1F = (w >>> 20) &&& 0x1F ∧
        ((w % 0x100000000) >>> 15) &&& 0x1F = (w >>> 15) &&& 0x1F ∧
        ((w % 0x100000000) >>> 7) &&& 0x1F = (w >>> 7) &&& 0x1F ∧
        ((w % 0x100000000) >>> 25) &&& 0x1 = (w >>> 25) &&& 0x1 ∧
        ((w % 0x100000000) >>> 26) &&& 0x3 = (w >>> 26) &&& 0x3 ∧
        ((w % 0x100000000) >>> 28) &&& 0x1 = (w >>> 28) &&& 0x1 ∧
        ((w % 0x100000000) >>> 29) &&& 0x7 = (w >>> 29) &&& 0x7 ∧
        ((w % 0x100000000) >>> 20) &&& 0x7FF = (w >>> 20) &&& 0x7FF := by
      simp only [mask127, mask63, mask31, mask7, mask3, mask1, mask2047, sr7, sr12,
                 sr15, sr20, sr25, sr26, sr28, sr29]
      omega
    obtain ⟨e_op, e_f3, e_f6, e_vs2, e_vs1, e_vd, e_vm, e_mop, e_mew, e_nf, e_vt⟩ :=
      hfields
    exact disassemble_rvv_congr w (w % 0x100000000) e_op e_f3 e_f6 e_vs2 e_vs1 e_vd
      e_vm e_mop e_mew e_nf e_vt
  · exact disassemble_rvv_ne_empty w

end RVV
